import Mathlib

/-!
Shallow embedding of `gymnax/rollouts/base_rollouts.py` (class `BaseRollouts`).

The Python class wires pluggable hooks (environment `reset`/`step`, actor
`action_selection`, learner `update_learner`, experience formatting and
storage) into a single actor-learner step, scans that step over a fixed
episode length (`lax.scan`), and vectorizes the scanned rollout over a batch
of random keys (`vmap`).  Here:
  * the hook functions become fields of a `BaseRollouts` structure;
  * `lax.scan` becomes an explicit structural recursion over a list
    (`jnp.zeros(max_steps_in_episode)` becomes `List.replicate n 0`);
  * `vmap` over the key axis becomes `List.map`;
  * the per-step scan output `y = [reward]` is kept as a singleton list, and
    the final `jnp.array(scan_out2).squeeze()` flattens the list of
    singletons (`List.flatten`);
  * Python's mutable instance attributes set by `init_collector`
    (`agent_params`, `actor_state`, `learner_state`) become `Option` fields
    of a `RolloutObj`; Python attribute lookup becomes `getAttr`, which
    fails with an `AttributeError`-like value when the field is `none`;
  * the `try/except AttributeError` blocks of `episode_rollout` and
    `batch_rollout` become `except_attribute_error`, which annotates
    attribute errors with the source's hint strings and lets every other
    error through unchanged.
-/

/-- The value types a concrete rollout collector works over.  The Python
code is duck-typed; each abstract interface type becomes a field. -/
structure RolloutSig where
  Rng : Type
  Obs : Type
  State : Type
  Action : Type
  EnvParams : Type
  AgentParams : Type
  ActorState : Type
  LearnerState : Type
  Experience : Type
  Reward : Type

/-- The hook functions of the `BaseRollouts` class.  In the source, `step`
and `reset` are passed to `__init__`, `random_split3` is
`jax.random.split(rng, 3)` (returning the retained key, the action key and
the step key, in that order), and the remaining hooks are the abstract
methods a subclass overrides.  `squeeze_obs` / `squeeze_state` model the
`.squeeze()` array method applied to `next_obs` / `next_state` before they
are re-carried. -/
structure BaseRollouts (S : RolloutSig) where
  step : S.Rng → S.EnvParams → S.State → S.Action → S.Obs × S.State × S.Reward × Bool × Unit
  reset : S.Rng → S.EnvParams → S.Obs × S.State
  random_split3 : S.Rng → S.Rng × S.Rng × S.Rng
  action_selection : S.Rng → S.Obs → S.AgentParams → S.ActorState → S.Action × S.ActorState
  prepare_experience : S.State × S.State × S.Obs × S.Obs × S.Action × S.Reward × Bool → S.ActorState → S.Experience
  store_experience : S.Experience → Unit
  update_learner : S.AgentParams → S.LearnerState → S.AgentParams × S.LearnerState
  init_learner_state : S.AgentParams → S.LearnerState
  init_actor_state : Unit → S.ActorState
  squeeze_obs : S.Obs → S.Obs
  squeeze_state : S.State → S.State

/-- The scan carry: `[rng, obs, state, env_params, agent_params,
actor_state, learner_state]` in the source. -/
structure Carry (S : RolloutSig) where
  rng : S.Rng
  obs : S.Obs
  state : S.State
  env_params : S.EnvParams
  agent_params : S.AgentParams
  actor_state : S.ActorState
  learner_state : S.LearnerState

/-- `lax.scan`: thread a carry through `f` along `xs`, collecting the
per-step outputs in order. -/
def scan {C X Y : Type} (f : C → X → C × Y) (init : C) : List X → C × List Y
  | [] => (init, [])
  | x :: xs =>
    let cy := f init x
    let rest := scan f cy.1 xs
    (rest.1, cy.2 :: rest.2)

/-- `BaseRollouts.perform_transition`: delegate the environment transition
to the `step` hook. -/
def perform_transition {S : RolloutSig} (self : BaseRollouts S) (key : S.Rng)
    (env_params : S.EnvParams) (state : S.State) (action : S.Action) :
    S.Obs × S.State × S.Reward × Bool × Unit :=
  self.step key env_params state action

/-- `BaseRollouts.actor_learner_step`: one `lax.scan`-compatible step.
The scanned input `tmp` (an element of `jnp.zeros(max_steps_in_episode)`)
is ignored; the per-step output is `[reward]`. -/
def actor_learner_step {S : RolloutSig} (self : BaseRollouts S)
    (carry_input : Carry S) (tmp : Nat) : Carry S × List S.Reward :=
  -- 0. unpack carry, split rng key for action selection + transition
  let split := self.random_split3 carry_input.rng
  let rng := split.1
  let key_act := split.2.1
  let key_step := split.2.2
  -- 1. perform action selection using actor NN
  let sel := self.action_selection key_act carry_input.obs
      carry_input.agent_params carry_input.actor_state
  let action := sel.1
  let actor_state := sel.2
  -- 2. perform the step transition in the environment & format env output
  let tr := perform_transition self key_step carry_input.env_params
      carry_input.state action
  let next_obs := tr.1
  let next_state := tr.2.1
  let reward := tr.2.2.1
  let done := tr.2.2.2.1
  let env_output := (carry_input.state, next_state, carry_input.obs,
      next_obs, action, reward, done)
  -- 3. prepare gathered info from transition (env + net)
  let step_experience := self.prepare_experience env_output actor_state
  -- 4. store the transition in a transition buffer (side effect,
  --    invisible to the pure carry)
  let _ := self.store_experience step_experience
  -- 5. update the learner
  let upd := self.update_learner carry_input.agent_params
      carry_input.learner_state
  -- 6. collect all relevant data for next actor-learner-step
  ({ rng := rng
     obs := self.squeeze_obs next_obs
     state := self.squeeze_state next_state
     env_params := carry_input.env_params
     agent_params := upd.1
     actor_state := actor_state
     learner_state := upd.2 }, [reward])

/-- The initial scan carry built inside `lax_rollout`: the root key itself
together with the observation and state produced by `reset` on that same
root key. -/
def initial_carry {S : RolloutSig} (self : BaseRollouts S) (key_input : S.Rng)
    (env_params : S.EnvParams) (agent_params : S.AgentParams)
    (actor_state : S.ActorState) (learner_state : S.LearnerState) : Carry S :=
  let or := self.reset key_input env_params
  { rng := key_input
    obs := or.1
    state := or.2
    env_params := env_params
    agent_params := agent_params
    actor_state := actor_state
    learner_state := learner_state }

/-- `BaseRollouts.lax_rollout`: reset with the root key, scan
`actor_learner_step` over `jnp.zeros(max_steps_in_episode)` starting from a
carry that reuses the root key, and flatten the collected singleton reward
lists (`jnp.array(scan_out2).squeeze()`). -/
def lax_rollout {S : RolloutSig} (self : BaseRollouts S) (key_input : S.Rng)
    (env_params : S.EnvParams) (max_steps_in_episode : Nat)
    (agent_params : S.AgentParams) (actor_state : S.ActorState)
    (learner_state : S.LearnerState) : Carry S × List S.Reward :=
  let out := scan (actor_learner_step self)
      (initial_carry self key_input env_params agent_params actor_state
        learner_state)
      (List.replicate max_steps_in_episode 0)
  (out.1, out.2.flatten)

/-- Python exceptions relevant to this module: `AttributeError` (the only
class the orchestrator catches) and every other exception class. -/
inductive PyError where
  | attributeError (msg : String)
  | otherError (msg : String)
deriving DecidableEq, Repr

/-- An instance of the `BaseRollouts` class.  `env_params` and
`max_steps_in_episode` (read out of `env_params["max_steps_in_episode"]`)
are set in `__init__`; `agent_params`, `actor_state` and `learner_state`
are only set by `init_collector`, so before that call they are missing
attributes, modelled as `none`. -/
structure RolloutObj (S : RolloutSig) where
  hooks : BaseRollouts S
  env_params : S.EnvParams
  max_steps_in_episode : Nat
  agent_params : Option S.AgentParams
  actor_state : Option S.ActorState
  learner_state : Option S.LearnerState

/-- The class name appearing in Python attribute-error messages. -/
def object_name : String := "BaseRollouts"

/-- The message of the `AttributeError` Python raises when attribute
`attr` is missing. -/
def missing_attribute_message (attr : String) : String :=
  "\x27" ++ object_name ++ "\x27 object has no attribute \x27" ++ attr ++ "\x27"

/-- Python attribute lookup on a possibly-unset attribute. -/
def getAttr {A : Type} (attr : String) : Option A → Except PyError A
  | some a => .ok a
  | none => .error (.attributeError (missing_attribute_message attr))

/-- The hint `episode_rollout` appends to an intercepted
`AttributeError`. -/
def episode_rollout_hint : String :=
  ". You need to initialize the agent\x27s parameters and the states of the actor and learner."

/-- The hint `batch_rollout` appends to an intercepted `AttributeError`. -/
def batch_rollout_hint : String :=
  ". You need to initialize the agent params and actor/learner states."

/-- `try: ... except AttributeError as err: raise AttributeError(f"..."):`
re-raise an `AttributeError` with `hint` appended to its message; every
other outcome passes through unchanged. -/
def except_attribute_error {A : Type} (hint : String) :
    Except PyError A → Except PyError A
  | .ok a => .ok a
  | .error (.attributeError msg) => .error (.attributeError (msg ++ hint))
  | .error e => .error e

/-- The body of the `try` block of `episode_rollout`: look up the instance
attributes (in the order Python evaluates the call's arguments) and run
`lax_rollout`. -/
def episode_rollout_body {S : RolloutSig} (self : RolloutObj S)
    (key_rollout : S.Rng) : Except PyError (Carry S × List S.Reward) := do
  let ap ← getAttr ("agent_params") self.agent_params
  let acts ← getAttr ("actor_state") self.actor_state
  let ls ← getAttr ("learner_state") self.learner_state
  pure (lax_rollout self.hooks key_rollout self.env_params
    self.max_steps_in_episode ap acts ls)

/-- `BaseRollouts.episode_rollout`: jitted single-episode rollout with the
uninitialized-state `AttributeError` annotation. -/
def episode_rollout {S : RolloutSig} (self : RolloutObj S)
    (key_rollout : S.Rng) : Except PyError (Carry S × List S.Reward) :=
  except_attribute_error episode_rollout_hint
    (episode_rollout_body self key_rollout)

/-- `BaseRollouts.vmap_rollout`: maps `lax_rollout` over the key axis only
(`in_axes=(0, None, None, None, None, None)`).  The call's `env_params`,
`max_steps_in_episode`, `agent_params`, `actor_state` and `learner_state`
arguments are never used: the map is applied to `self.env_params`,
`self.max_steps_in_episode`, `self.agent_params`, `self.actor_state` and
`self.learner_state`.  The stacked outputs become the list of per-episode
carries and the list of per-episode reward rows. -/
def vmap_rollout {S : RolloutSig} (self : RolloutObj S)
    (key_input : List S.Rng) (env_params : S.EnvParams)
    (max_steps_in_episode : Nat) (agent_params : S.AgentParams)
    (actor_state : S.ActorState) (learner_state : S.LearnerState) :
    Except PyError (List (Carry S) × List (List S.Reward)) := do
  let ap ← getAttr ("agent_params") self.agent_params
  let acts ← getAttr ("actor_state") self.actor_state
  let ls ← getAttr ("learner_state") self.learner_state
  let rolled := key_input.map (fun k =>
    lax_rollout self.hooks k self.env_params self.max_steps_in_episode
      ap acts ls)
  pure (rolled.map Prod.fst, rolled.map Prod.snd)

/-- The body of the `try` block of `batch_rollout`: look up the instance
attributes used as arguments of `vmap_rollout`, then call it. -/
def batch_rollout_body {S : RolloutSig} (self : RolloutObj S)
    (key_rollout : List S.Rng) :
    Except PyError (List (Carry S) × List (List S.Reward)) := do
  let ap ← getAttr ("agent_params") self.agent_params
  let acts ← getAttr ("actor_state") self.actor_state
  let ls ← getAttr ("learner_state") self.learner_state
  vmap_rollout self key_rollout self.env_params self.max_steps_in_episode
    ap acts ls

/-- `BaseRollouts.batch_rollout`: vmapped rollout for a batch of keys with
the uninitialized-state `AttributeError` annotation. -/
def batch_rollout {S : RolloutSig} (self : RolloutObj S)
    (key_rollout : List S.Rng) :
    Except PyError (List (Carry S) × List (List S.Reward)) :=
  except_attribute_error batch_rollout_hint
    (batch_rollout_body self key_rollout)

/-- `BaseRollouts.init_collector`: store the agent parameters and the
freshly initialized learner and actor states on the instance. -/
def init_collector {S : RolloutSig} (self : RolloutObj S)
    (agent_params : S.AgentParams) : RolloutObj S :=
  { self with
    agent_params := some agent_params
    learner_state := some (self.hooks.init_learner_state agent_params)
    actor_state := some (self.hooks.init_actor_state ()) }

/-!
Fallible variant of the pipeline.  Python hooks are arbitrary user code and
may raise any exception while a rollout runs; to study how the `try/except
AttributeError` blocks treat such errors, the hooks here return
`Except PyError`.  The orchestration is otherwise identical.
-/

/-- The hooks of a subclass whose overrides may raise Python exceptions. -/
structure FallibleBaseRollouts (S : RolloutSig) where
  step : S.Rng → S.EnvParams → S.State → S.Action → Except PyError (S.Obs × S.State × S.Reward × Bool × Unit)
  reset : S.Rng → S.EnvParams → Except PyError (S.Obs × S.State)
  random_split3 : S.Rng → S.Rng × S.Rng × S.Rng
  action_selection : S.Rng → S.Obs → S.AgentParams → S.ActorState → Except PyError (S.Action × S.ActorState)
  prepare_experience : S.State × S.State × S.Obs × S.Obs × S.Action × S.Reward × Bool → S.ActorState → Except PyError S.Experience
  store_experience : S.Experience → Except PyError Unit
  update_learner : S.AgentParams → S.LearnerState → Except PyError (S.AgentParams × S.LearnerState)
  squeeze_obs : S.Obs → S.Obs
  squeeze_state : S.State → S.State

/-- `lax.scan` over a step that may raise: the first raise aborts the whole
scan (a failure at step N aborts the episode). -/
def scanE {C X Y : Type} (f : C → X → Except PyError (C × Y)) (init : C) :
    List X → Except PyError (C × List Y)
  | [] => .ok (init, [])
  | x :: xs => do
    let cy ← f init x
    let rest ← scanE f cy.1 xs
    pure (rest.1, cy.2 :: rest.2)

/-- `actor_learner_step` with fallible hooks, same call order as the pure
version. -/
def actor_learner_stepE {S : RolloutSig} (self : FallibleBaseRollouts S)
    (carry_input : Carry S) (tmp : Nat) :
    Except PyError (Carry S × List S.Reward) := do
  let split := self.random_split3 carry_input.rng
  let rng := split.1
  let key_act := split.2.1
  let key_step := split.2.2
  let sel ← self.action_selection key_act carry_input.obs
      carry_input.agent_params carry_input.actor_state
  let action := sel.1
  let actor_state := sel.2
  let tr ← self.step key_step carry_input.env_params carry_input.state action
  let next_obs := tr.1
  let next_state := tr.2.1
  let reward := tr.2.2.1
  let done := tr.2.2.2.1
  let env_output := (carry_input.state, next_state, carry_input.obs,
      next_obs, action, reward, done)
  let step_experience ← self.prepare_experience env_output actor_state
  let _ ← self.store_experience step_experience
  let upd ← self.update_learner carry_input.agent_params
      carry_input.learner_state
  pure ({ rng := rng
          obs := self.squeeze_obs next_obs
          state := self.squeeze_state next_state
          env_params := carry_input.env_params
          agent_params := upd.1
          actor_state := actor_state
          learner_state := upd.2 }, [reward])

/-- `lax_rollout` with fallible hooks. -/
def lax_rolloutE {S : RolloutSig} (self : FallibleBaseRollouts S)
    (key_input : S.Rng) (env_params : S.EnvParams)
    (max_steps_in_episode : Nat) (agent_params : S.AgentParams)
    (actor_state : S.ActorState) (learner_state : S.LearnerState) :
    Except PyError (Carry S × List S.Reward) := do
  let or ← self.reset key_input env_params
  let out ← scanE (actor_learner_stepE self)
      { rng := key_input
        obs := or.1
        state := or.2
        env_params := env_params
        agent_params := agent_params
        actor_state := actor_state
        learner_state := learner_state }
      (List.replicate max_steps_in_episode 0)
  pure (out.1, out.2.flatten)

/-- A `BaseRollouts` instance whose hooks may raise. -/
structure FallibleRolloutObj (S : RolloutSig) where
  hooks : FallibleBaseRollouts S
  env_params : S.EnvParams
  max_steps_in_episode : Nat
  agent_params : Option S.AgentParams
  actor_state : Option S.ActorState
  learner_state : Option S.LearnerState

/-- The `try` block of `episode_rollout` with fallible hooks. -/
def episode_rolloutE_body {S : RolloutSig} (self : FallibleRolloutObj S)
    (key_rollout : S.Rng) : Except PyError (Carry S × List S.Reward) := do
  let ap ← getAttr ("agent_params") self.agent_params
  let acts ← getAttr ("actor_state") self.actor_state
  let ls ← getAttr ("learner_state") self.learner_state
  lax_rolloutE self.hooks key_rollout self.env_params
    self.max_steps_in_episode ap acts ls

/-- `episode_rollout` with fallible hooks: only an `AttributeError` coming
out of the `try` block is annotated. -/
def episode_rolloutE {S : RolloutSig} (self : FallibleRolloutObj S)
    (key_rollout : S.Rng) : Except PyError (Carry S × List S.Reward) :=
  except_attribute_error episode_rollout_hint
    (episode_rolloutE_body self key_rollout)

/-- The `try` block of `batch_rollout` with fallible hooks. -/
def batch_rolloutE_body {S : RolloutSig} (self : FallibleRolloutObj S)
    (key_rollout : List S.Rng) :
    Except PyError (List (Carry S) × List (List S.Reward)) := do
  let ap ← getAttr ("agent_params") self.agent_params
  let acts ← getAttr ("actor_state") self.actor_state
  let ls ← getAttr ("learner_state") self.learner_state
  let rolled ← key_rollout.mapM (fun k =>
    lax_rolloutE self.hooks k self.env_params self.max_steps_in_episode
      ap acts ls)
  pure (rolled.map Prod.fst, rolled.map Prod.snd)

/-- `batch_rollout` with fallible hooks. -/
def batch_rolloutE {S : RolloutSig} (self : FallibleRolloutObj S)
    (key_rollout : List S.Rng) :
    Except PyError (List (Carry S) × List (List S.Reward)) :=
  except_attribute_error batch_rollout_hint
    (batch_rolloutE_body self key_rollout)

/-!
A concrete collector: the scenario of §8.7 of the spec.  The environment is
deterministic, `reset` returns the fixed pair `(7, 0)`, `step` returns
reward `1` and done `false` on every call, and the episode length is 5.
`update_learner` is the identity.
-/

/-- Concrete value types for the scenario instance. -/
@[reducible] def demoSig : RolloutSig where
  Rng := Nat
  Obs := Int
  State := Int
  Action := Int
  EnvParams := Unit
  AgentParams := Int
  ActorState := Int
  LearnerState := Int
  Experience := Int
  Reward := Int

/-- Hooks of the concrete scenario: fixed reset, constant reward `1`,
`done = false`, identity learner update. -/
def demoHooks : BaseRollouts demoSig where
  step := fun _key _env_params state action => (state + action, state + 1, 1, false, ())
  reset := fun _key _env_params => (7, 0)
  random_split3 := fun k => (3 * k + 1, 3 * k + 2, 3 * k + 3)
  action_selection := fun key obs agent_params actor_state =>
    (obs + agent_params + Int.ofNat key, actor_state + 1)
  prepare_experience := fun env_output actor_state =>
    env_output.2.2.2.2.2.1 + actor_state
  store_experience := fun _ => ()
  update_learner := fun agent_params learner_state => (agent_params, learner_state)
  init_learner_state := fun agent_params => agent_params
  init_actor_state := fun _ => 0
  squeeze_obs := id
  squeeze_state := id

/-- The scenario instance after `init_collector`: episode length 5 and all
collector state present. -/
def demoObj : RolloutObj demoSig where
  hooks := demoHooks
  env_params := ()
  max_steps_in_episode := 5
  agent_params := some 11
  actor_state := some 0
  learner_state := some 3

/-- The scenario instance before `init_collector`: the three collector
attributes are missing. -/
def demoUninit : RolloutObj demoSig where
  hooks := demoHooks
  env_params := ()
  max_steps_in_episode := 5
  agent_params := none
  actor_state := none
  learner_state := none

/-- Hooks under which every carry field other than `env_params` changes in
a single step. -/
def changeHooks : BaseRollouts demoSig where
  step := fun _key _env_params state action => (state + action + 1, state + 1, 2, false, ())
  reset := fun _key _env_params => (0, 0)
  random_split3 := fun k => (k + 1, k + 2, k + 3)
  action_selection := fun _key obs agent_params actor_state =>
    (obs + agent_params + 1, actor_state + 1)
  prepare_experience := fun _env_output actor_state => actor_state
  store_experience := fun _ => ()
  update_learner := fun agent_params learner_state =>
    (agent_params + 1, learner_state + 1)
  init_learner_state := fun agent_params => agent_params
  init_actor_state := fun _ => 0
  squeeze_obs := id
  squeeze_state := id

/-- Fallible hooks whose `action_selection` raises a non-`AttributeError`
exception on every call. -/
def demoFallibleHooks : FallibleBaseRollouts demoSig where
  step := fun _key _env_params state action => .ok (state + action, state + 1, 1, false, ())
  reset := fun _key _env_params => .ok (7, 0)
  random_split3 := fun k => (3 * k + 1, 3 * k + 2, 3 * k + 3)
  action_selection := fun _key _obs _agent_params _actor_state =>
    .error (.otherError ("ValueError: bad action"))
  prepare_experience := fun _env_output actor_state => .ok actor_state
  store_experience := fun _ => .ok ()
  update_learner := fun agent_params learner_state => .ok (agent_params, learner_state)
  squeeze_obs := id
  squeeze_state := id

/-- An initialized instance over the fallible hooks. -/
def demoFallibleObj : FallibleRolloutObj demoSig where
  hooks := demoFallibleHooks
  env_params := ()
  max_steps_in_episode := 5
  agent_params := some 11
  actor_state := some 0
  learner_state := some 3

/-!  Helper lemmas about the scanned step.  -/

/-- Each scanned step outputs exactly one reward, so the flattened reward
sequence of a scan has one entry per scanned element. -/
theorem scan_step_flatten_length {S : RolloutSig} (self : BaseRollouts S)
    (l : List Nat) (c : Carry S) :
    ((scan (actor_learner_step self) c l).2.flatten).length = l.length := by
  induction l generalizing c with
  | nil => rfl
  | cons x xs ih => simp [scan, actor_learner_step, ih]

/-- The scanned step never touches the carry's `env_params`. -/
theorem scan_step_env_params {S : RolloutSig} (self : BaseRollouts S)
    (l : List Nat) (c : Carry S) :
    ((scan (actor_learner_step self) c l).1).env_params = c.env_params := by
  induction l generalizing c with
  | nil => rfl
  | cons x xs ih => simp [scan, actor_learner_step, ih]

/-- When `update_learner` is the identity, the scanned step never changes
the carry's `agent_params`. -/
theorem scan_step_agent_params_of_id {S : RolloutSig} (self : BaseRollouts S)
    (hid : ∀ p l, self.update_learner p l = (p, l))
    (l : List Nat) (c : Carry S) :
    ((scan (actor_learner_step self) c l).1).agent_params = c.agent_params := by
  induction l generalizing c with
  | nil => rfl
  | cons x xs ih => simp [scan, actor_learner_step, ih, hid]

/-- An initialized collector state makes `episode_rollout` succeed with
exactly the `lax_rollout` result. -/
theorem episode_rollout_of_initialized {S : RolloutSig} (self : RolloutObj S)
    (key : S.Rng) (ap : S.AgentParams) (acts : S.ActorState)
    (ls : S.LearnerState) (hap : self.agent_params = some ap)
    (hact : self.actor_state = some acts) (hls : self.learner_state = some ls) :
    episode_rollout self key = .ok (lax_rollout self.hooks key self.env_params
      self.max_steps_in_episode ap acts ls) := by
  simp [episode_rollout, episode_rollout_body, except_attribute_error,
    getAttr, hap, hact, hls, Bind.bind, Except.bind, Pure.pure, Except.pure]

/-!  Claim theorems.  -/

/-- C1: for an environment with `max_steps_in_episode = 5`, a deterministic
`reset` returning the fixed pair `(obs0, state0) = (7, 0)`, and a
deterministic `step` returning reward `1` and `done = false` on every call,
`episode_rollout` returns the reward sequence `[1, 1, 1, 1, 1]`. -/
theorem c1_episode_rollout_concrete_rewards :
    (episode_rollout demoObj 42).map Prod.snd = Except.ok [1, 1, 1, 1, 1] := by
  rfl

/-- C2: on an initialized collector, for every positive
`max_steps_in_episode` and every set of hooks, `episode_rollout` succeeds
and the returned reward sequence has length `max_steps_in_episode`. -/
theorem c2_episode_rollout_reward_length {S : RolloutSig}
    (self : RolloutObj S) (key : S.Rng) (ap : S.AgentParams)
    (acts : S.ActorState) (ls : S.LearnerState)
    (hap : self.agent_params = some ap) (hact : self.actor_state = some acts)
    (hls : self.learner_state = some ls)
    (hpos : 0 < self.max_steps_in_episode) :
    ∃ trace rewards, episode_rollout self key = .ok (trace, rewards) ∧
      rewards.length = self.max_steps_in_episode := by
  refine ⟨_, _, episode_rollout_of_initialized self key ap acts ls hap hact hls, ?_⟩
  show ((scan (actor_learner_step self.hooks)
      (initial_carry self.hooks key self.env_params ap acts ls)
      (List.replicate self.max_steps_in_episode 0)).2.flatten).length =
    self.max_steps_in_episode
  rw [scan_step_flatten_length, List.length_replicate]

/-- Witness for C2 on the concrete scenario instance. -/
theorem c2_witness :
    demoObj.agent_params = some 11 ∧ demoObj.actor_state = some 0 ∧
    demoObj.learner_state = some 3 ∧ 0 < demoObj.max_steps_in_episode ∧
    ∃ trace rewards, episode_rollout demoObj 42 = .ok (trace, rewards) ∧
      rewards.length = demoObj.max_steps_in_episode :=
  ⟨rfl, rfl, rfl, by decide,
    c2_episode_rollout_reward_length demoObj 42 11 0 3 rfl rfl rfl (by decide)⟩

/-- C4: `episode_rollout` is deterministic — two calls with identical
instance (hooks, params, collector state) and identical root key produce
identical results, in particular identical reward sequences. -/
theorem c4_episode_rollout_deterministic {S : RolloutSig}
    (self1 self2 : RolloutObj S) (k1 k2 : S.Rng)
    (hself : self1 = self2) (hk : k1 = k2) :
    episode_rollout self1 k1 = episode_rollout self2 k2 := by
  rw [hself, hk]

/-- Witness for C4 on the concrete scenario instance. -/
theorem c4_witness :
    demoObj = demoObj ∧ (42 : Nat) = 42 ∧
    episode_rollout demoObj 42 = episode_rollout demoObj 42 :=
  ⟨rfl, rfl, c4_episode_rollout_deterministic demoObj demoObj 42 42 rfl rfl⟩

/-- C7: `actor_learner_step` returns a carry whose `env_params` equal the
input carry's `env_params`; consequently `env_params` is constant across
any scanned rollout; and every other carry field may change in a step, as
the `changeHooks` instance shows. -/
theorem c7_env_params_invariant :
    (∀ (S : RolloutSig) (self : BaseRollouts S) (c : Carry S) (tmp : Nat),
      ((actor_learner_step self c tmp).1).env_params = c.env_params) ∧
    (∀ (S : RolloutSig) (self : BaseRollouts S) (c : Carry S) (l : List Nat),
      ((scan (actor_learner_step self) c l).1).env_params = c.env_params) ∧
    (∃ (c : Carry demoSig) (tmp : Nat),
      ((actor_learner_step changeHooks c tmp).1).rng ≠ c.rng ∧
      ((actor_learner_step changeHooks c tmp).1).obs ≠ c.obs ∧
      ((actor_learner_step changeHooks c tmp).1).state ≠ c.state ∧
      ((actor_learner_step changeHooks c tmp).1).agent_params ≠ c.agent_params ∧
      ((actor_learner_step changeHooks c tmp).1).actor_state ≠ c.actor_state ∧
      ((actor_learner_step changeHooks c tmp).1).learner_state ≠ c.learner_state) := by
  refine ⟨fun S self c tmp => rfl,
    fun S self c l => scan_step_env_params self l c,
    ⟨⟨0, 0, 0, (), 0, 0, 0⟩, 0, ?_⟩⟩
  refine ⟨?_, ?_, ?_, ?_, ?_, ?_⟩ <;> decide

/-- C3: on an initialized collector, `batch_rollout` over a batch of root
keys succeeds, has one carry row and one reward row per key, and row `i`
equals the result of `episode_rollout` on `keys[i]` run in isolation —
batching introduces no cross-episode coupling. -/
theorem c3_batch_rollout_rows {S : RolloutSig} (self : RolloutObj S)
    (keys : List S.Rng) (ap : S.AgentParams) (acts : S.ActorState)
    (ls : S.LearnerState) (hap : self.agent_params = some ap)
    (hact : self.actor_state = some acts) (hls : self.learner_state = some ls) :
    ∃ traces rewards, batch_rollout self keys = .ok (traces, rewards) ∧
      traces.length = keys.length ∧ rewards.length = keys.length ∧
      ∀ i, i < keys.length →
        ∃ k trace reward, keys[i]? = some k ∧ traces[i]? = some trace ∧
          rewards[i]? = some reward ∧
          episode_rollout self k = .ok (trace, reward) := by
  refine ⟨keys.map (fun k => (lax_rollout self.hooks k self.env_params
      self.max_steps_in_episode ap acts ls).1),
    keys.map (fun k => (lax_rollout self.hooks k self.env_params
      self.max_steps_in_episode ap acts ls).2), ?_, by simp, by simp, ?_⟩
  · simp [batch_rollout, batch_rollout_body, vmap_rollout,
      except_attribute_error, getAttr, hap, hact, hls, Bind.bind,
      Except.bind, Pure.pure, Except.pure, List.map_map, Function.comp]
  · intro i hi
    refine ⟨keys[i], (lax_rollout self.hooks keys[i] self.env_params
        self.max_steps_in_episode ap acts ls).1,
      (lax_rollout self.hooks keys[i] self.env_params
        self.max_steps_in_episode ap acts ls).2,
      List.getElem?_eq_getElem hi, ?_, ?_, ?_⟩
    · simp [List.getElem?_eq_getElem hi]
    · simp [List.getElem?_eq_getElem hi]
    · exact episode_rollout_of_initialized self keys[i] ap acts ls hap hact hls

/-- Witness for C3 on the concrete scenario instance with two keys. -/
theorem c3_witness :
    demoObj.agent_params = some 11 ∧ demoObj.actor_state = some 0 ∧
    demoObj.learner_state = some 3 ∧
    ∃ traces rewards, batch_rollout demoObj [1, 2] = .ok (traces, rewards) ∧
      traces.length = 2 ∧ rewards.length = 2 ∧
      ∀ i, i < 2 →
        ∃ k trace reward, [1, 2][i]? = some k ∧ traces[i]? = some trace ∧
          rewards[i]? = some reward ∧
          episode_rollout demoObj k = .ok (trace, reward) :=
  ⟨rfl, rfl, rfl, c3_batch_rollout_rows demoObj [1, 2] 11 0 3 rfl rfl rfl⟩

/-- C5: before `init_collector`, the collector attributes are missing, and
both rollout entry points raise a wrapped `AttributeError` whose message is
the original missing-attribute text followed by the hint to initialize the
agent parameters and the actor/learner states. -/
theorem c5_uninitialized_error {S : RolloutSig} (self : RolloutObj S)
    (key : S.Rng) (keys : List S.Rng) (hap : self.agent_params = none)
    (hact : self.actor_state = none) (hls : self.learner_state = none) :
    episode_rollout self key = .error (.attributeError
      (missing_attribute_message ("agent_params") ++ episode_rollout_hint)) ∧
    batch_rollout self keys = .error (.attributeError
      (missing_attribute_message ("agent_params") ++ batch_rollout_hint)) := by
  constructor <;>
    simp [episode_rollout, batch_rollout, episode_rollout_body,
      batch_rollout_body, except_attribute_error, getAttr, hap,
      Bind.bind, Except.bind]

/-- Witness for C5 on the uninitialized scenario instance. -/
theorem c5_witness :
    demoUninit.agent_params = none ∧ demoUninit.actor_state = none ∧
    demoUninit.learner_state = none ∧
    episode_rollout demoUninit 42 = .error (.attributeError
      (missing_attribute_message ("agent_params") ++ episode_rollout_hint)) ∧
    batch_rollout demoUninit [1, 2] = .error (.attributeError
      (missing_attribute_message ("agent_params") ++ batch_rollout_hint)) :=
  ⟨rfl, rfl, rfl,
    (c5_uninitialized_error demoUninit 42 [1, 2] rfl rfl rfl).1,
    (c5_uninitialized_error demoUninit 42 [1, 2] rfl rfl rfl).2⟩

/-- C6: when `update_learner` is the identity on
`(agent_params, learner_state)`, the agent params in the final carry of
`episode_rollout` equal the initial agent params, and they are unchanged at
every intermediate step of the scan. -/
theorem c6_update_learner_id_agent_params {S : RolloutSig}
    (self : RolloutObj S) (key : S.Rng) (ap : S.AgentParams)
    (acts : S.ActorState) (ls : S.LearnerState)
    (hap : self.agent_params = some ap) (hact : self.actor_state = some acts)
    (hls : self.learner_state = some ls)
    (hid : ∀ p l, self.hooks.update_learner p l = (p, l)) :
    ∃ trace rewards, episode_rollout self key = .ok (trace, rewards) ∧
      trace.agent_params = ap ∧
      ∀ k, k ≤ self.max_steps_in_episode →
        ((scan (actor_learner_step self.hooks)
            (initial_carry self.hooks key self.env_params ap acts ls)
            (List.replicate k 0)).1).agent_params = ap := by
  refine ⟨_, _, episode_rollout_of_initialized self key ap acts ls hap hact hls,
    ?_, ?_⟩
  · show ((scan (actor_learner_step self.hooks)
        (initial_carry self.hooks key self.env_params ap acts ls)
        (List.replicate self.max_steps_in_episode 0)).1).agent_params = ap
    rw [scan_step_agent_params_of_id self.hooks hid]; rfl
  · intro k hk
    rw [scan_step_agent_params_of_id self.hooks hid]; rfl

/-- Witness for C6 on the concrete scenario instance, whose learner update
is the identity. -/
theorem c6_witness :
    demoObj.agent_params = some 11 ∧
    ∃ trace rewards, episode_rollout demoObj 42 = .ok (trace, rewards) ∧
      trace.agent_params = 11 ∧
      ∀ k, k ≤ demoObj.max_steps_in_episode →
        ((scan (actor_learner_step demoObj.hooks)
            (initial_carry demoObj.hooks 42 demoObj.env_params 11 0 3)
            (List.replicate k 0)).1).agent_params = 11 :=
  ⟨rfl, c6_update_learner_id_agent_params demoObj 42 11 0 3 rfl rfl rfl
    (fun p l => rfl)⟩

/-- C8: the rollout entry points intercept and annotate exactly the
`AttributeError` class; any other error produced by the rollout body —
including one raised inside a user-supplied hook — propagates to the
caller unmodified, through both `episode_rollout` and `batch_rollout`. -/
theorem c8_only_attribute_error_intercepted {S : RolloutSig}
    (self : FallibleRolloutObj S) (key : S.Rng) (keys : List S.Rng)
    (e : PyError) (hnot : ∀ msg, e ≠ PyError.attributeError msg) :
    (episode_rolloutE_body self key = .error e →
      episode_rolloutE self key = .error e) ∧
    (batch_rolloutE_body self keys = .error e →
      batch_rolloutE self keys = .error e) ∧
    (∀ msg, episode_rolloutE_body self key = .error (.attributeError msg) →
      episode_rolloutE self key =
        .error (.attributeError (msg ++ episode_rollout_hint))) := by
  refine ⟨?_, ?_, ?_⟩
  · intro h
    cases e with
    | attributeError msg => exact absurd rfl (hnot msg)
    | otherError msg => simp [episode_rolloutE, except_attribute_error, h]
  · intro h
    cases e with
    | attributeError msg => exact absurd rfl (hnot msg)
    | otherError msg => simp [batch_rolloutE, except_attribute_error, h]
  · intro msg h
    simp [episode_rolloutE, except_attribute_error, h]

/-- Witness for C8: a hook (`action_selection`) raising a non-attribute
error makes the rollout body fail with that error, and `episode_rollout`
re-raises it verbatim. -/
theorem c8_witness :
    episode_rolloutE_body demoFallibleObj 5 =
      .error (.otherError ("ValueError: bad action")) ∧
    episode_rolloutE demoFallibleObj 5 =
      .error (.otherError ("ValueError: bad action")) :=
  ⟨rfl, (c8_only_attribute_error_intercepted demoFallibleObj 5 []
      (.otherError ("ValueError: bad action"))
      (fun _ h => PyError.noConfusion h)).1 rfl⟩

/-- C9: `vmap_rollout` ignores the `env_params`, `max_steps_in_episode`,
`agent_params`, `actor_state` and `learner_state` arguments of the call —
any two argument tuples give identical results — and instead maps
`lax_rollout` over the call's keys using the instance attributes. -/
theorem c9_vmap_rollout_ignores_arguments {S : RolloutSig}
    (self : RolloutObj S) (keys : List S.Rng) (p p2 : S.EnvParams)
    (n n2 : Nat) (a a2 : S.AgentParams) (s s2 : S.ActorState)
    (l l2 : S.LearnerState) :
    vmap_rollout self keys p n a s l = vmap_rollout self keys p2 n2 a2 s2 l2 ∧
    (∀ ap acts ls, self.agent_params = some ap →
      self.actor_state = some acts → self.learner_state = some ls →
      vmap_rollout self keys p n a s l =
        .ok (keys.map (fun k => (lax_rollout self.hooks k self.env_params
              self.max_steps_in_episode ap acts ls).1),
            keys.map (fun k => (lax_rollout self.hooks k self.env_params
              self.max_steps_in_episode ap acts ls).2))) := by
  refine ⟨rfl, ?_⟩
  intro ap acts ls hap hact hls
  simp [vmap_rollout, getAttr, hap, hact, hls, Bind.bind, Except.bind,
    Pure.pure, Except.pure, List.map_map, Function.comp]

/-- Witness for C9: two calls on the scenario instance with unrelated
non-key arguments agree, and the result maps over the instance
attributes. -/
theorem c9_witness :
    demoObj.agent_params = some 11 ∧
    vmap_rollout demoObj [1, 2] () 0 5 5 5 =
      vmap_rollout demoObj [1, 2] () 99 6 7 8 ∧
    vmap_rollout demoObj [1, 2] () 0 5 5 5 =
      .ok ([1, 2].map (fun k => (lax_rollout demoObj.hooks k demoObj.env_params
            demoObj.max_steps_in_episode 11 0 3).1),
          [1, 2].map (fun k => (lax_rollout demoObj.hooks k demoObj.env_params
            demoObj.max_steps_in_episode 11 0 3).2)) :=
  ⟨rfl,
    (c9_vmap_rollout_ignores_arguments demoObj [1, 2] () () 0 99 5 6 5 7 5 8).1,
    (c9_vmap_rollout_ignores_arguments demoObj [1, 2] () () 0 99 5 6 5 7 5 8).2
      11 0 3 rfl rfl rfl⟩

/-- C10: `lax_rollout` passes the root key to `reset` and also stores the
very same key unchanged as the `rng` field of the initial scan carry, so
the first step's three-way split operates on the key `reset` already
consumed: the first reward comes from acting with the action and step keys
split off the root key, on the observation and state `reset` produced from
that same root key. -/
theorem c10_root_key_reused {S : RolloutSig} (self : BaseRollouts S)
    (key : S.Rng) (p : S.EnvParams) (n : Nat) (a : S.AgentParams)
    (acts : S.ActorState) (ls : S.LearnerState) (hn : 1 ≤ n) :
    (initial_carry self key p a acts ls).rng = key ∧
    ((initial_carry self key p a acts ls).obs,
      (initial_carry self key p a acts ls).state) = self.reset key p ∧
    (lax_rollout self key p n a acts ls).2.head? =
      some ((self.step ((self.random_split3 key).2.2) p (self.reset key p).2
        ((self.action_selection ((self.random_split3 key).2.1)
            (self.reset key p).1 a acts).1)).2.2.1) := by
  refine ⟨rfl, rfl, ?_⟩
  cases n with
  | zero => exact absurd hn (by decide)
  | succ m =>
    simp [lax_rollout, List.replicate_succ, scan, actor_learner_step,
      perform_transition, initial_carry]

/-- Witness for C10 on the concrete scenario instance. -/
theorem c10_witness :
    1 ≤ 5 ∧
    ((initial_carry demoHooks 42 () 11 0 3).rng = 42 ∧
     ((initial_carry demoHooks 42 () 11 0 3).obs,
       (initial_carry demoHooks 42 () 11 0 3).state) = demoHooks.reset 42 () ∧
     (lax_rollout demoHooks 42 () 5 11 0 3).2.head? =
       some ((demoHooks.step ((demoHooks.random_split3 42).2.2) ()
         (demoHooks.reset 42 ()).2
         ((demoHooks.action_selection ((demoHooks.random_split3 42).2.1)
             (demoHooks.reset 42 ()).1 11 0).1)).2.2.1)) :=
  ⟨by decide, c10_root_key_reused demoHooks 42 () 5 11 0 3 (by decide)⟩
